import Mathlib

/-!
Verification development for the Channel Mapparr Dispatcharr plugin
(`Channel-Maparr/plugin.py`).  The definitions below are a shallow
embedding of the name-matching and channel-processing core of
`plugin.py`: Python strings are Lean `String`s (lists of characters),
Python `None`-able strings are `Option String`, Python exceptions are
`Except Unit`, and each inline regular expression of the source is
translated into an explicit character-list scanner with the same
backtracking behaviour.  Functions of the companion module
`fuzzy_matcher.py` (which is not part of the embedded source) are either
taken as parameters and universally quantified, or modelled from the
specification where noted.
-/

namespace ChannelMapparr

/-! ## Python string primitives -/

/-- Python whitespace (`str.strip`, regex `\s`): space, tab, newline,
carriage return, vertical tab, form feed. -/
def pyIsSpace (c : Char) : Bool :=
  c = ' ' || c = '\t' || c = '\n' || c = '\r' || c = '\x0b' || c = '\x0c'

/-- Python `str.strip()` on a character list. -/
def pyStripList (cs : List Char) : List Char :=
  ((cs.dropWhile pyIsSpace).reverse.dropWhile pyIsSpace).reverse

/-- Python `str.strip()`. -/
def pyStrip (s : String) : String :=
  String.mk (pyStripList s.data)

/-- Python `str.upper()` (ASCII). -/
def pyUpper (s : String) : String :=
  String.mk (s.data.map Char.toUpper)

/-- Python `str.lower()` (ASCII). -/
def pyLower (s : String) : String :=
  String.mk (s.data.map Char.toLower)

/-- Regex `\d`. -/
def isDigitC (c : Char) : Bool := c.isDigit

/-- Regex `\w` (ASCII): letters, digits, underscore. -/
def isWordC (c : Char) : Bool := c.isAlphanum || c = '_'

/-- Helper for `pyTitle`: `cased` records whether the previous character
was a letter. -/
def pyTitleGo : Bool → List Char → List Char
  | _, [] => []
  | cased, c :: rest =>
    if c.isAlpha then
      (if cased then c.toLower else c.toUpper) :: pyTitleGo true rest
    else
      c :: pyTitleGo false rest

/-- Python `str.title()` (ASCII): each maximal run of letters starts
uppercase and continues lowercase. -/
def pyTitle (s : String) : String :=
  String.mk (pyTitleGo false s.data)

/-- Python `str.split(',')`: split on every comma, keeping empty parts. -/
def pySplitCommaGo : List Char → List Char → List String
  | cur, [] => [String.mk cur.reverse]
  | cur, c :: rest =>
    if c = ',' then String.mk cur.reverse :: pySplitCommaGo [] rest
    else pySplitCommaGo (c :: cur) rest

/-- Python `str.split(',')`. -/
def pySplitComma (s : String) : List String :=
  pySplitCommaGo [] s.data

/-- Python `sub in s` membership test on character lists (fuel-driven
scan; `fuel` is an upper bound on the scan length). -/
def containsSubGo (pat : List Char) : Nat → List Char → Bool
  | _, [] => pat.isEmpty
  | 0, _ => false
  | fuel + 1, c :: rest =>
    pat.isPrefixOf (c :: rest) || containsSubGo pat fuel rest

/-- Python `sub in s`. -/
def strContains (s sub : String) : Bool :=
  containsSubGo sub.data s.data.length s.data

/-- Python `s.startswith(p)`. -/
def strStarts (s p : String) : Bool :=
  p.data.isPrefixOf s.data

/-- Python `s.endswith(p)`. -/
def strEnds (s p : String) : Bool :=
  p.data.isSuffixOf s.data

/-- One pass of Python `str.replace(pat, repl)` on character lists
(replaces every non-overlapping occurrence, left to right; `pat` is
non-empty at every call site).  `fuel` bounds the scan. -/
def replaceAllGo (pat repl : List Char) : Nat → List Char → List Char
  | _, [] => []
  | 0, cs => cs
  | fuel + 1, c :: rest =>
    if pat.isPrefixOf (c :: rest) then
      repl ++ replaceAllGo pat repl fuel ((c :: rest).drop pat.length)
    else
      c :: replaceAllGo pat repl fuel rest

/-- Python `str.replace(pat, repl)` for a non-empty `pat`. -/
def strReplace (s pat repl : String) : String :=
  String.mk (replaceAllGo pat.data repl.data s.data.length s.data)

/-- Python truthiness of an optional string: `None` and `""` are falsy. -/
def truthyOpt : Option String → Bool
  | none => false
  | some s => s ≠ ""

/-! ## `_parse_network_affiliation` (plugin.py lines 614-640)

Each regular expression of the source is translated into an explicit
scanner.  `.` never matches a newline and `$` is end of string, as in
the source's non-MULTILINE patterns. -/

/-- Python `re.sub(r'^D\d+-', '', s)`: strip a leading `D<digits>-` tuner
prefix. -/
def stripTunerD (cs : List Char) : List Char :=
  match cs with
  | 'D' :: r =>
    if (r.takeWhile isDigitC).isEmpty then cs
    else
      match r.dropWhile isDigitC with
      | '-' :: rest => rest
      | _ => cs
  | _ => cs

/-- The `-(TV|CD|LP|DT|LD)` callsign suffix alternative: returns the
remainder when the input starts with one of the five suffixes. -/
def csSuffixOpt (cs : List Char) : Option (List Char) :=
  match cs with
  | '-' :: a :: b :: r =>
    if (a = 'T' && b = 'V') || (a = 'C' && b = 'D') || (a = 'L' && b = 'P')
        || (a = 'D' && b = 'T') || (a = 'L' && b = 'D') then some r
    else none
  | _ => none

/-- The `\s+D\d+\s*-\s*` tail of the callsign-tuner prefix pattern:
returns the remainder after the match. -/
def csTunerTail (cs : List Char) : Option (List Char) :=
  if (cs.takeWhile pyIsSpace).isEmpty then none
  else
    match cs.dropWhile pyIsSpace with
    | 'D' :: r1 =>
      if (r1.takeWhile isDigitC).isEmpty then none
      else
        match (r1.dropWhile isDigitC).dropWhile pyIsSpace with
        | '-' :: r3 => some (r3.dropWhile pyIsSpace)
        | _ => none
    | _ => none

/-- After the `[KW][A-Z]{3,4}` letters: optional suffix (tried first, as
the regex's greedy optional group), then the tuner tail. -/
def afterCsLetters (r : List Char) : Option (List Char) :=
  (match csSuffixOpt r with
   | some r2 => csTunerTail r2
   | none => none) <|> csTunerTail r

/-- Python `re.sub(r'^[KW][A-Z]{3,4}(?:-(?:TV|CD|LP|DT|LD))?\s+D\d+\s*-\s*', '', s)`:
strip a callsign-with-tuner prefix.  `{3,4}` is greedy: four letters are
tried before three. -/
def stripCallsignTuner (cs : List Char) : List Char :=
  match cs with
  | c0 :: r0 =>
    if c0 = 'K' || c0 = 'W' then
      let t4 : Option (List Char) :=
        match r0 with
        | a :: b :: c :: d :: r4 =>
          if a.isUpper && b.isUpper && c.isUpper && d.isUpper then
            afterCsLetters r4
          else none
        | _ => none
      let t3 : Option (List Char) :=
        match r0 with
        | a :: b :: c :: r3 =>
          if a.isUpper && b.isUpper && c.isUpper then afterCsLetters r3
          else none
        | _ => none
      match t4 <|> t3 with
      | some rest => rest
      | none => cs
    else cs
  | [] => []

/-- Regex `(?:/.*)?$`: end of string, or a slash followed by arbitrary
non-newline text to the end. -/
def slashEnd : List Char → Bool
  | [] => true
  | '/' :: rest => rest.all (fun c => c ≠ '\n')
  | _ => false

/-- Regex `(?:\.\d+)?` then `(?:/.*)?$` after the integer part. -/
def fracTail (r : List Char) : Bool :=
  slashEnd r ||
    (match r with
     | '.' :: r2 =>
       if (r2.takeWhile isDigitC).isEmpty then false
       else slashEnd (r2.dropWhile isDigitC)
     | _ => false)

/-- Regex `\d+(?:\.\d+)?(?:/.*)?$`. -/
def numTail (cs : List Char) : Bool :=
  if (cs.takeWhile isDigitC).isEmpty then false
  else fracTail (cs.dropWhile isDigitC)

/-- Regex `CH\s+` then the number tail (the optional `(?:CH\s+)?` group). -/
def chTail : List Char → Bool
  | 'C' :: 'H' :: r =>
    if (r.takeWhile pyIsSpace).isEmpty then false
    else numTail (r.dropWhile pyIsSpace)
  | _ => false

/-- Regex `\s+(?:CH\s+)?\d+(?:\.\d+)?(?:/.*)?$`: the part of the
trailing-channel-number pattern after the lazy group. -/
def chanNumTail (cs : List Char) : Bool :=
  if (cs.takeWhile pyIsSpace).isEmpty then false
  else
    let r1 := cs.dropWhile pyIsSpace
    chTail r1 || numTail r1

/-- Scanner for `re.sub(r'^(.*?)\s+(?:CH\s+)?\d+(?:\.\d+)?(?:/.*)?$', r'\1', s)`:
the lazy `(.*?)` takes the shortest prefix (never crossing a newline)
whose remainder matches the tail; the whole match is replaced by that
prefix. -/
def chanNumGo : List Char → List Char → Option (List Char)
  | acc, [] => if chanNumTail [] then some acc.reverse else none
  | acc, c :: rest =>
    if chanNumTail (c :: rest) then some acc.reverse
    else if c = '\n' then none
    else chanNumGo (c :: acc) rest

/-- Strip a trailing channel-number/subchannel suffix (plugin.py line 626). -/
def stripTrailingChanNum (cs : List Char) : List Char :=
  (chanNumGo [] cs).getD cs

/-- Python `re.sub(r'^\d+\.?\d*\s+', '', s)`: strip a leading channel number. -/
def stripLeadingChanNum (cs : List Char) : List Char :=
  if (cs.takeWhile isDigitC).isEmpty then cs
  else
    let r1 := cs.dropWhile isDigitC
    let r2 := match r1 with
              | '.' :: t => t
              | _ => r1
    let r3 := r2.dropWhile isDigitC
    if (r3.takeWhile pyIsSpace).isEmpty then cs
    else r3.dropWhile pyIsSpace

/-- The separator class `[;/,\(]` of `re.split`. -/
def isSepC (c : Char) : Bool :=
  c = ';' || c = '/' || c = ',' || c = '('

/-- Python `re.split(r'[;/,\(]', s)[0]`: the text before the first separator. -/
def takeBeforeSep (cs : List Char) : List Char :=
  cs.takeWhile (fun c => !isSepC c)

/-- Case-insensitive literal match: `pat` is given lowercase; returns
the remainder on success. -/
def ciStarts : List Char → List Char → Option (List Char)
  | [], cs => some cs
  | _, [] => none
  | p :: ps, c :: cs => if c.toLower = p then ciStarts ps cs else none

/-- Matcher for `\s+(?:Television\s+)?Network\s*$` (case-insensitive)
anchored at the current position. -/
def netSuffixMatch (cs : List Char) : Bool :=
  if (cs.takeWhile pyIsSpace).isEmpty then false
  else
    let r := cs.dropWhile pyIsSpace
    (match ciStarts "television".data r with
     | some r1 =>
       if (r1.takeWhile pyIsSpace).isEmpty then false
       else
         match ciStarts "network".data (r1.dropWhile pyIsSpace) with
         | some r3 => r3.all pyIsSpace
         | none => false
     | none => false)
    ||
    (match ciStarts "network".data r with
     | some r3 => r3.all pyIsSpace
     | none => false)

/-- Leftmost-match scan for the trailing `Network` pattern: drop the
matched suffix (the match always extends to the end of the string). -/
def netSuffixGo : List Char → List Char → List Char
  | acc, [] => acc.reverse
  | acc, c :: rest =>
    if netSuffixMatch (c :: rest) then acc.reverse
    else netSuffixGo (c :: acc) rest

/-- Python `re.sub(r'\s+(?:Television\s+)?Network\s*$', '', s, flags=re.IGNORECASE)`
(plugin.py line 635). -/
def stripNetworkWord (cs : List Char) : List Char :=
  netSuffixGo [] cs

/-- The step pipeline of `_parse_network_affiliation` on character
lists, in source order (plugin.py lines 620-638). -/
def parseNetAffList (cs : List Char) : List Char :=
  let a := stripTunerD cs
  let b := stripCallsignTuner a
  let c := stripTrailingChanNum b
  let d := stripLeadingChanNum c
  let e := pyStripList (takeBeforeSep d)
  let f := pyStripList (stripNetworkWord e)
  f.map Char.toUpper

/-- Embedding of `_parse_network_affiliation` (plugin.py lines 614-640).  `none`
models Python `None`; a falsy input (None or empty) returns `None`, and
an empty final result returns `None`. -/
def parseNetworkAffiliation : Option String → Option String
  | none => none
  | some s =>
    if s = "" then none
    else
      let r := parseNetAffList s.data
      if r.isEmpty then none else some (String.mk r)

/-- The pipeline exactly as the specification sentence describes it:
tuner prefixes, trailing channel-number suffixes, text before the first
separator, trailing Network suffix, uppercase — with no
leading-channel-number step. -/
def parseNetAffListClaimed (cs : List Char) : List Char :=
  let a := stripTunerD cs
  let b := stripCallsignTuner a
  let c := stripTrailingChanNum b
  let e := pyStripList (takeBeforeSep c)
  let f := pyStripList (stripNetworkWord e)
  f.map Char.toUpper

/-- The function `_parse_network_affiliation` as claim C5 states it (without the
leading-channel-number strip). -/
def parseNetworkAffiliationClaimed : Option String → Option String
  | none => none
  | some s =>
    if s = "" then none
    else
      let r := parseNetAffListClaimed s.data
      if r.isEmpty then none else some (String.mk r)

/-- Claim C5 amended: the same description with the
leading-channel-number strip (plugin.py line 629) inserted after the
trailing-suffix strip. -/
def parseNetworkAffiliationAmended : Option String → Option String
  | none => none
  | some s =>
    if s = "" then none
    else
      let r := parseNetAffList s.data
      if r.isEmpty then none else some (String.mk r)

/-! ## `_format_ota_name` (plugin.py lines 643-676) -/

/-- A broadcast station record: the fields `_format_ota_name` reads
(`dict.get` with `''` default makes every field a plain string). -/
structure Station where
  networkAffiliation : String
  city : String
  state : String
deriving DecidableEq, Repr

/-- Modelled from the spec: `normalize_callsign` is defined in
`fuzzy_matcher.py`, which is not part of the embedded source.  Per §3
and §4.7 of the specification, it is the callsign with a trailing
`-TV`/`-CD`/`-LP`/`-DT`/`-LD` suffix stripped. -/
def normalizeCallsign (cs : String) : String :=
  if strEnds cs "-TV" || strEnds cs "-CD" || strEnds cs "-LP"
      || strEnds cs "-DT" || strEnds cs "-LD" then
    String.mk (cs.data.take (cs.data.length - 3))
  else cs

/-- Python `re.findall(r'\{(\w+)\}', format_string)`: every `{word}`
placeholder, left to right, non-overlapping.  `fuel` bounds the scan
(`findPlaceholders` supplies the string length, which suffices since
every step consumes at least one character). -/
def findPHGo : Nat → List Char → List String
  | 0, _ => []
  | _, [] => []
  | fuel + 1, c :: rest =>
    if c = '\x7b' then
      let w := rest.takeWhile isWordC
      let r2 := rest.dropWhile isWordC
      match r2 with
      | '\x7d' :: r3 =>
        if w.isEmpty then findPHGo fuel rest
        else String.mk w :: findPHGo fuel r3
      | _ => findPHGo fuel rest
    else findPHGo fuel rest

/-- The placeholders referenced by a format template. -/
def findPlaceholders (s : String) : List String :=
  findPHGo s.data.length s.data

/-- The `replacements` dict of `_format_ota_name`, in insertion order. -/
def otaReplacements (st : Station) (callsign : String) : List (String × Option String) :=
  [("NETWORK", parseNetworkAffiliation (some (pyStrip st.networkAffiliation))),
   ("CITY", some (pyTitle st.city)),
   ("STATE", some (pyUpper st.state)),
   ("CALLSIGN", some (normalizeCallsign callsign))]

/-- Check `field in replacements and replacements[field]` for one required
field. -/
def goodField (st : Station) (callsign : String) (f : String) : Bool :=
  match (otaReplacements st callsign).lookup f with
  | none => false
  | some v => truthyOpt v

/-- The replacement loop of `_format_ota_name`: `str.replace` with a
`None` value raises `TypeError`, modelled as `Except.error ()`. -/
def otaReplaceLoop : List (String × Option String) → String → Except Unit String
  | [], acc => Except.ok acc
  | (f, v) :: rest, acc =>
    match v with
    | none => Except.error ()
    | some s => otaReplaceLoop rest (strReplace acc ("\x7b" ++ f ++ "\x7d") s)

/-- Embedding of `_format_ota_name` (plugin.py lines 643-676).  `Except.error ()` is
an uncaught Python exception; `Except.ok none` is the `return None`
required-field outcome; `Except.ok (some r)` is a formatted name. -/
def formatOtaName (st : Station) (fmtStr : String) (callsign : String) :
    Except Unit (Option String) :=
  let required := findPlaceholders fmtStr
  if required.all (fun f => goodField st callsign f) then
    match otaReplaceLoop (otaReplacements st callsign) fmtStr with
    | Except.ok r => Except.ok (some r)
    | Except.error e => Except.error e
  else
    Except.ok none

/-! ## Per-channel processing (`load_and_process_channels_action`,
plugin.py lines 806-908)

The `FuzzyMatcher` methods used by the loop live in `fuzzy_matcher.py`
and are taken as parameters: `mb` is `match_broadcast_channel`, `fz` is
`fuzzy_match` (with the premium list and ignored tags fixed for the
batch), and `build` is `extract_tags` followed by
`build_final_channel_name` (it receives the channel's current name and
the matched premium name). -/

/-- A catalog channel as the loop reads it. -/
structure Channel where
  id : Nat
  name : String
  number : String
  groupName : String
deriving DecidableEq, Repr

/-- Record status. -/
inductive Status where
  | renamed
  | skipped
deriving DecidableEq, Repr

/-- One entry of the persisted `changes` batch. -/
structure ChangeRecord where
  channelId : Nat
  channelNumber : String
  channelGroup : String
  currentName : String
  newName : String
  status : Status
  matcher : Option String
  matchMethod : Option String
  reason : String
deriving DecidableEq, Repr

/-- The loop's per-channel local state (`new_name`, `matcher_used`,
`match_method`, `skip_reason`, `ota_callsign_found`, and the two
debug-stats attempt flags). -/
structure PhaseSt where
  newName : Option String
  matcherUsed : Option String
  matchMethod : Option String
  skipReason : Option String
  otaCallsignFound : Bool
  otaAttempted : Bool
  premiumAttempted : Bool
deriving DecidableEq, Repr

/-- Initial per-channel state. -/
def initPhase : PhaseSt :=
  ⟨none, none, none, none, false, false, false⟩

/-- The OTA branch (plugin.py lines 826-842).  `bcNE` is
`bool(self.matcher.broadcast_channels)`. -/
def otaPhase (bcNE : Bool) (mb : String → Option String × Option Station)
    (fmtStr : String) (currentName : String) : Except Unit PhaseSt :=
  if bcNE then
    let csO := (mb currentName).1
    let stO := (mb currentName).2
    if truthyOpt csO then
      match stO with
      | some st =>
        match formatOtaName st fmtStr (csO.getD "") with
        | Except.error e => Except.error e
        | Except.ok nn =>
          if truthyOpt nn then
            Except.ok { initPhase with
                        newName := nn,
                        matcherUsed := some "Broadcast (OTA)",
                        matchMethod := some "OTA - Callsign Match",
                        otaCallsignFound := true, otaAttempted := true }
          else
            Except.ok { initPhase with
                        newName := nn,
                        skipReason := some "Missing required fields for OTA format",
                        otaCallsignFound := true, otaAttempted := true }
      | none =>
        Except.ok { initPhase with
                    skipReason :=
                      some ("Callsign " ++ csO.getD "" ++ " not in channel databases"),
                    otaCallsignFound := true, otaAttempted := true }
    else
      Except.ok { initPhase with otaAttempted := true }
  else
    Except.ok initPhase

/-- The `match_method` string built for a premium match
(plugin.py lines 864-872). -/
def premiumMethodStr (mtO : Option String) (score : Nat) : String :=
  if truthyOpt mtO then
    let mt := mtO.getD ""
    if strContains (pyLower mt) "fuzzy" then
      "Fuzzy Match - " ++ mt ++ " (score: " ++ toString score ++ ")"
    else if mt = "exact" then
      "Exact Match (score: " ++ toString score ++ ")"
    else
      "Premium - " ++ mt ++ " (score: " ++ toString score ++ ")"
  else
    "Premium Match (score: " ++ toString score ++ ")"

/-- The premium branch (plugin.py lines 844-875).  `pcNE` is
`bool(self.matcher.premium_channels)`. -/
def premiumPhase (pcNE : Bool)
    (fz : String → Option String × Nat × Option String)
    (build : String → String → String)
    (currentName : String) (s1 : PhaseSt) : PhaseSt :=
  if !truthyOpt s1.newName && pcNE && !s1.otaCallsignFound then
    let (mO, score, mtO) := fz currentName
    if truthyOpt mO then
      { s1 with
        premiumAttempted := true,
        newName := some (build currentName (mO.getD "")),
        matcherUsed := some "Premium/Cable",
        matchMethod := some (premiumMethodStr mtO score) }
    else
      { s1 with premiumAttempted := true }
  else s1

/-- The rename-or-skip decision (plugin.py lines 877-908). -/
def mkRecord (ch : Channel) (currentName : String) (s : PhaseSt) : ChangeRecord :=
  if truthyOpt s.newName = true ∧ s.newName ≠ some currentName then
    { channelId := ch.id, channelNumber := ch.number,
      channelGroup := ch.groupName, currentName := currentName,
      newName := s.newName.getD "", status := Status.renamed,
      matcher := s.matcherUsed, matchMethod := s.matchMethod, reason := "" }
  else
    { channelId := ch.id, channelNumber := ch.number,
      channelGroup := ch.groupName, currentName := currentName,
      newName := currentName, status := Status.skipped,
      matcher := some "none", matchMethod := some "No Match",
      reason :=
        if s.newName = some currentName then "Already in correct format"
        else s.skipReason.getD "No match found in channels.json" }

/-- The outcome of processing one channel: the record plus the loop's
observable flags (`computed` is the final value of the `new_name`
local). -/
structure ProcResult where
  record : ChangeRecord
  computed : Option String
  otaCallsignFound : Bool
  otaAttempted : Bool
  premiumAttempted : Bool
deriving DecidableEq, Repr

/-- One iteration of the processing loop (plugin.py lines 806-908). -/
def processChannel (bcNE pcNE : Bool)
    (mb : String → Option String × Option Station)
    (fz : String → Option String × Nat × Option String)
    (build : String → String → String)
    (fmtStr : String) (ch : Channel) : Except Unit ProcResult :=
  let currentName := pyStrip ch.name
  match otaPhase bcNE mb fmtStr currentName with
  | Except.error e => Except.error e
  | Except.ok s1 =>
    let s2 := premiumPhase pcNE fz build currentName s1
    Except.ok ⟨mkRecord ch currentName s2, s2.newName,
               s2.otaCallsignFound, s2.otaAttempted, s2.premiumAttempted⟩

/-- The whole batch loop: builds `renamed_channels` and
`skipped_channels` in iteration order. -/
def processBatch (bcNE pcNE : Bool)
    (mb : String → Option String × Option Station)
    (fz : String → Option String × Nat × Option String)
    (build : String → String → String)
    (fmtStr : String) :
    List Channel → Except Unit (List ChangeRecord × List ChangeRecord)
  | [] => Except.ok ([], [])
  | ch :: rest =>
    match processChannel bcNE pcNE mb fz build fmtStr ch with
    | Except.error e => Except.error e
    | Except.ok r =>
      match processBatch bcNE pcNE mb fz build fmtStr rest with
      | Except.error e => Except.error e
      | Except.ok (ren, sk) =>
        match r.record.status with
        | Status.renamed => Except.ok (r.record :: ren, sk)
        | Status.skipped => Except.ok (ren, r.record :: sk)

/-! ## `_load_channel_data` (plugin.py lines 570-612) and the
load-and-process action -/

/-- A settings value as Python sees it: the threshold field may hold an
integer or an arbitrary string. -/
inductive PyVal where
  | pyInt (n : Int)
  | pyStr (s : String)
deriving DecidableEq, Repr

/-- Digit-group parser for Python `int(str)`: digits optionally
separated by single underscores (each underscore must sit between
digits). -/
def pyIntDigitsGo : Nat → Bool → List Char → Option Nat
  | acc, _, [] => some acc
  | acc, _, c :: rest =>
    if isDigitC c then pyIntDigitsGo (acc * 10 + (c.toNat - '0'.toNat)) true rest
    else if c = '_' then
      match rest with
      | d :: _ => if isDigitC d then pyIntDigitsGo acc false rest else none
      | [] => none
    else none

/-- Python `int(x)`: for a string, strips whitespace, allows one sign,
then digit groups; anything else raises (returns `none`). -/
def pyToInt : PyVal → Option Int
  | PyVal.pyInt n => some n
  | PyVal.pyStr s =>
    let cs := pyStripList s.data
    match cs with
    | [] => none
    | '-' :: r =>
      match r with
      | [] => none
      | d :: _ =>
        if isDigitC d then (pyIntDigitsGo 0 true r).map (fun n => -(n : Int))
        else none
    | '+' :: r =>
      match r with
      | [] => none
      | d :: _ =>
        if isDigitC d then (pyIntDigitsGo 0 true r).map (fun n => (n : Int))
        else none
    | d :: _ =>
      if isDigitC d then (pyIntDigitsGo 0 true cs).map (fun n => (n : Int))
      else none

/-- The threshold resolution of `_load_channel_data` (plugin.py lines
587-596): unparsable or out-of-range values fall back to the default 85
with a logged warning. -/
def resolveThreshold (v : PyVal) : Int :=
  match pyToInt v with
  | none => 85
  | some n => if n < 0 || n > 100 then 85 else n

/-- The malformed-threshold predicate of claim C4: not an integer, or
outside 0-100. -/
def thresholdMalformed (v : PyVal) : Prop :=
  match pyToInt v with
  | none => True
  | some n => n < 0 ∨ 100 < n

/-- Plugin settings (the fields the embedded actions read). -/
structure Settings where
  channelDatabases : String
  fuzzyThreshold : PyVal
  otaFormat : String
deriving DecidableEq, Repr

/-- Modelled from the spec: `reload_databases` is defined in
`fuzzy_matcher.py`, which is not part of the embedded source.  Per §4.4
of the specification it returns a clear failure signal (here `false`)
exactly when none of the requested country datasets can be located, and
proceeds with whatever loaded otherwise; `locate` says whether one
country's dataset can be located. -/
def reloadDatabases (locate : String → Bool) (codes : List String) : Bool :=
  codes.any locate

/-- Outcome of `_load_channel_data`: `noCodes` is the early `return
False` for an empty country list; otherwise the threshold has been
resolved and `ok` is the `reload_databases` result. -/
inductive LoadResult where
  | noCodes
  | loaded (threshold : Int) (ok : Bool)
deriving DecidableEq, Repr

/-- Embedding of `_load_channel_data` (plugin.py lines 570-612). -/
def loadChannelData (s : Settings) (locate : String → Bool) : LoadResult :=
  let dbStr := pyStrip s.channelDatabases
  let dbStr2 := if dbStr = "" then "US" else dbStr
  let codes := ((pySplitComma dbStr2).map (fun c => pyUpper (pyStrip c))).filter
      (fun c => c ≠ "")
  if codes = [] then LoadResult.noCodes
  else LoadResult.loaded (resolveThreshold s.fuzzyThreshold)
      (reloadDatabases locate codes)

/-- The database-load failure message of
`load_and_process_channels_action` (plugin.py line 716). -/
def dbErrMsg : String :=
  "Channel databases could not be loaded. Please check your channel_databases setting and ensure the files exist."

/-- Outcome of the load-and-process action: an error message, or the
persisted batch (renamed records, skipped records). -/
inductive ActionOutcome where
  | error (msg : String)
  | success (renamed skipped : List ChangeRecord)
deriving DecidableEq, Repr

/-- Embedding of `load_and_process_channels_action` (plugin.py lines 707-947),
restricted to its matching core: database load, then the per-channel
loop over the snapshot `chans`.  API-client steps (token, group and
channel listing) are external I/O and are represented by `chans` being
given.  The resolved threshold is handed to the fuzzy matcher, as
`self.matcher.match_threshold` is in the source. -/
def loadAndProcessAction (settings : Settings) (locate : String → Bool)
    (bcNE pcNE : Bool)
    (mb : String → Option String × Option Station)
    (fz : Int → String → Option String × Nat × Option String)
    (build : String → String → String)
    (chans : List Channel) : ActionOutcome :=
  match loadChannelData settings locate with
  | LoadResult.noCodes => ActionOutcome.error dbErrMsg
  | LoadResult.loaded t ok =>
    if ok then
      match processBatch bcNE pcNE mb (fz t) build settings.otaFormat chans with
      | Except.error _ => ActionOutcome.error "Error loading and processing channels"
      | Except.ok (ren, sk) => ActionOutcome.success ren sk
    else ActionOutcome.error dbErrMsg

/-! ## Ignored-tags expansion (plugin.py lines 777-793 and 1268-1281) -/

/-- Python `[tag.strip() for tag in ignored_tags_str.split(',') if tag.strip()]`. -/
def parseIgnoredTags (s : String) : List String :=
  ((pySplitComma s).map pyStrip).filter (fun t => t ≠ "")

/-- Python `tag[1:-1]`. -/
def innerTag (tag : String) : String :=
  (tag.drop 1).dropRight 1

/-- The per-literal expansion of the ignored-tags loop: the literal
itself, then its other-delimiter form when it is bracketed or
parenthesized. -/
def expandOneTag (tag : String) : List String :=
  if strStarts tag "[" && strEnds tag "]" then
    [tag, "(" ++ innerTag tag ++ ")"]
  else if strStarts tag "(" && strEnds tag ")" then
    [tag, "[" ++ innerTag tag ++ "]"]
  else [tag]

/-- The expanded ignore list (plugin.py lines 781-793). -/
def expandIgnoredTags (tags : List String) : List String :=
  tags.flatMap expandOneTag

/-! ## `rename_unknown_channels_action` (plugin.py lines 1052-1103) -/

/-- The add-suffix action on the persisted batch: error (modelled
without its message text) when the suffix is empty or whitespace,
otherwise the bulk-rename payload `(channel_id, current_name + suffix)`
for every `Skipped` record. -/
def renameUnknownAction (suffix : String) (changes : List ChangeRecord) :
    Except Unit (List (Nat × String)) :=
  if suffix = "" ∨ pyStrip suffix = "" then Except.error ()
  else
    Except.ok (((changes.filter (fun c => c.status = Status.skipped)).map
      (fun c => (c.channelId, c.currentName ++ suffix))))

/-! ## Concrete instances used by witnesses and counterexamples -/

/-- A broadcast matcher that never recognizes a callsign. -/
def mbNone : String → Option String × Option Station :=
  fun _ => (none, none)

/-- A fuzzy matcher that never matches. -/
def fzNone : String → Option String × Nat × Option String :=
  fun _ => (none, 0, none)

/-- A threshold-indexed fuzzy matcher that never matches. -/
def fzNoneT : Int → String → Option String × Nat × Option String :=
  fun _ _ => (none, 0, none)

/-- A trivial name builder. -/
def buildId : String → String → String :=
  fun _ m => m

/-- A broadcast matcher that recognizes the callsign KFAKE with no
station record, for every input. -/
def mbUnknownCallsign : String → Option String × Option Station :=
  fun _ => (some "KFAKE", none)

/-- A locate function that finds every country dataset. -/
def locateAll : String → Bool := fun _ => true

/-- A locate function that finds no country dataset. -/
def locateNone : String → Bool := fun _ => false

/-- A sample catalog channel. -/
def ch0 : Channel := ⟨1, "Foo", "7", "Locals"⟩

/-- Settings with a malformed (non-integer) fuzzy threshold. -/
def settingsBadThreshold : Settings :=
  ⟨"US", PyVal.pyStr "abc", "{NETWORK} - {STATE} {CITY} ({CALLSIGN})"⟩

/-- The record produced for `ch0` when nothing matches. -/
def noMatchRec0 : ChangeRecord :=
  ⟨1, "7", "Locals", "Foo", "Foo", Status.skipped, some "none",
   some "No Match", "No match found in channels.json"⟩

/-- The processing outcome for `ch0` with trivial matchers. -/
def noMatchRes0 : ProcResult :=
  ⟨noMatchRec0, none, false, false, false⟩

/-- The station of claim C3's failing input: empty network affiliation. -/
def stationNoNet : Station :=
  ⟨"", "denver", "co"⟩

/-- The skipped record of a channel that matched but was already
correctly named, as the load-and-process pass persists it. -/
def alreadyCorrectRec : ChangeRecord :=
  ⟨7, "5", "Premium", "HBO", "HBO", Status.skipped, some "none",
   some "No Match", "Already in correct format"⟩

/-- The processing outcome for `ch0` under `mbUnknownCallsign`. -/
def unknownCsRes0 : ProcResult :=
  ⟨⟨1, "7", "Locals", "Foo", "Foo", Status.skipped, some "none",
    some "No Match", "Callsign KFAKE not in channel databases"⟩,
   none, true, true, false⟩


/-! ## General lemmas about the embedding -/

/-- The first character of an unknown-callsign skip reason is `C`,
whatever the callsign. -/
theorem callsign_reason_head (cs : String) :
    ("Callsign " ++ cs ++ " not in channel databases").data.head? = some 'C' := by
  obtain ⟨xs⟩ := cs
  rfl

/-- The unknown-callsign skip reason is never the generic no-match
reason, whatever the callsign. -/
theorem callsign_reason_ne_noMatch (cs : String) :
    ("Callsign " ++ cs ++ " not in channel databases") ≠
      "No match found in channels.json" := by
  obtain ⟨xs⟩ := cs
  intro h
  exact absurd (congrArg (fun s => s.data.head?) h : some 'C' = some 'N') (by decide)

/-- The unknown-callsign skip reason is never empty. -/
theorem callsign_reason_ne_empty (cs : String) :
    ("Callsign " ++ cs ++ " not in channel databases") ≠ "" := by
  obtain ⟨xs⟩ := cs
  intro h
  exact absurd (congrArg (fun s => s.data.head?) h : some 'C' = none) (by decide)

/-- The record built by `mkRecord` keeps the channel's current name in
both branches. -/
theorem mkRecord_currentName (ch : Channel) (cur : String) (s : PhaseSt) :
    (mkRecord ch cur s).currentName = cur := by
  unfold mkRecord
  split <;> rfl

/-- Characterization of `mkRecord`: either the rename condition holds
and the record is the Renamed one, or it fails and the record is the
Skipped one. -/
theorem mkRecord_eq (ch : Channel) (cur : String) (s : PhaseSt) :
    (truthyOpt s.newName = true ∧ s.newName ≠ some cur ∧
      mkRecord ch cur s =
        { channelId := ch.id, channelNumber := ch.number,
          channelGroup := ch.groupName, currentName := cur,
          newName := s.newName.getD "", status := Status.renamed,
          matcher := s.matcherUsed, matchMethod := s.matchMethod,
          reason := "" }) ∨
    (¬(truthyOpt s.newName = true ∧ s.newName ≠ some cur) ∧
      mkRecord ch cur s =
        { channelId := ch.id, channelNumber := ch.number,
          channelGroup := ch.groupName, currentName := cur,
          newName := cur, status := Status.skipped,
          matcher := some "none", matchMethod := some "No Match",
          reason := if s.newName = some cur then "Already in correct format"
                    else s.skipReason.getD "No match found in channels.json" }) := by
  by_cases hc : truthyOpt s.newName = true ∧ s.newName ≠ some cur
  · exact Or.inl ⟨hc.1, hc.2, by unfold mkRecord; rw [if_pos hc]⟩
  · exact Or.inr ⟨hc, by unfold mkRecord; rw [if_neg hc]⟩

/-- The OTA phase with an empty broadcast database does nothing. -/
theorem otaPhase_false (mb : String → Option String × Option Station)
    (fmtStr cur : String) :
    otaPhase false mb fmtStr cur = Except.ok initPhase := rfl

/-- Invariants of every successful OTA phase: the premium-attempted
flag is untouched, the callsign-found flag records a truthy extracted
callsign, and the skip reason is absent or one of the two OTA skip
messages. -/
theorem otaPhase_inv (bc : Bool) (mb : String → Option String × Option Station)
    (fmtStr cur : String) (s1 : PhaseSt)
    (h : otaPhase bc mb fmtStr cur = Except.ok s1) :
    s1.premiumAttempted = false ∧
    s1.otaCallsignFound = (bc && truthyOpt (mb cur).1) ∧
    (s1.skipReason = none ∨
     s1.skipReason = some "Missing required fields for OTA format" ∨
     ∃ cs, s1.skipReason = some ("Callsign " ++ cs ++ " not in channel databases")) := by
  cases bc with
  | false =>
    have h2 : (Except.ok initPhase : Except Unit PhaseSt) = Except.ok s1 := h
    injection h2 with h3
    subst h3
    exact ⟨rfl, rfl, Or.inl rfl⟩
  | true =>
    simp only [otaPhase, if_true] at h
    split at h
    case isTrue htr =>
      split at h
      case h_1 st hst =>
        split at h
        case h_1 e hfo =>
          exact Except.noConfusion h
        case h_2 nn hfo =>
          split at h
          case isTrue htn =>
            injection h with h3
            subst h3
            exact ⟨rfl, by simp [htr], Or.inl rfl⟩
          case isFalse htn =>
            injection h with h3
            subst h3
            exact ⟨rfl, by simp [htr], Or.inr (Or.inl rfl)⟩
      case h_2 hst =>
        injection h with h3
        subst h3
        exact ⟨rfl, by simp [htr], Or.inr (Or.inr ⟨(mb cur).1.getD "", rfl⟩)⟩
    case isFalse htr =>
      injection h with h3
      subst h3
      simp only [Bool.not_eq_true] at htr
      exact ⟨rfl, by simp [initPhase, htr], Or.inl rfl⟩

/-- The OTA phase on a recognized callsign that is absent from the
loaded lookup: the distinct skip reason is recorded and the
callsign-found flag is set. -/
theorem otaPhase_unknown (mb : String → Option String × Option Station)
    (fmtStr cur cs : String)
    (hcs : cs ≠ "") (hmb : mb cur = (some cs, none)) :
    otaPhase true mb fmtStr cur =
      Except.ok { initPhase with
                  skipReason := some ("Callsign " ++ cs ++ " not in channel databases"),
                  otaCallsignFound := true, otaAttempted := true } := by
  simp only [otaPhase, if_true, hmb]
  rw [if_pos (show truthyOpt (some cs) = true by simp [truthyOpt, hcs])]
  rfl

/-- The premium phase never touches the skip reason. -/
theorem premiumPhase_skipReason (pc : Bool)
    (fz : String → Option String × Nat × Option String)
    (build : String → String → String) (cur : String) (s1 : PhaseSt) :
    (premiumPhase pc fz build cur s1).skipReason = s1.skipReason := by
  unfold premiumPhase
  split
  · rcases fz cur with ⟨mO, sc, mt⟩
    dsimp only
    split <;> rfl
  · rfl

/-- When a callsign was found, the premium phase is skipped entirely. -/
theorem premiumPhase_noChange (pc : Bool)
    (fz : String → Option String × Nat × Option String)
    (build : String → String → String) (cur : String) (s1 : PhaseSt)
    (hf : s1.otaCallsignFound = true) :
    premiumPhase pc fz build cur s1 = s1 := by
  unfold premiumPhase
  rw [if_neg]
  simp [hf]

/-- If the premium phase reports an attempt that the OTA phase did not
make, then no callsign was found. -/
theorem premiumPhase_attempted (pc : Bool)
    (fz : String → Option String × Nat × Option String)
    (build : String → String → String) (cur : String) (s1 : PhaseSt)
    (hp : s1.premiumAttempted = false)
    (h : (premiumPhase pc fz build cur s1).premiumAttempted = true) :
    s1.otaCallsignFound = false := by
  unfold premiumPhase at h
  split at h
  · next hc =>
      simp [Bool.and_eq_true, Bool.not_eq_true] at hc
      exact hc.2
  · rw [hp] at h
    exact absurd h (by simp)

/-- Decomposition of `processChannel`: a successful run is a successful
OTA phase followed by the pure premium phase and record construction. -/
theorem processChannel_ok (bc pc : Bool)
    (mb : String → Option String × Option Station)
    (fz : String → Option String × Nat × Option String)
    (build : String → String → String) (fmtStr : String) (ch : Channel)
    (res : ProcResult)
    (h : processChannel bc pc mb fz build fmtStr ch = Except.ok res) :
    ∃ s1, otaPhase bc mb fmtStr (pyStrip ch.name) = Except.ok s1 ∧
      res = ⟨mkRecord ch (pyStrip ch.name) (premiumPhase pc fz build (pyStrip ch.name) s1),
             (premiumPhase pc fz build (pyStrip ch.name) s1).newName,
             (premiumPhase pc fz build (pyStrip ch.name) s1).otaCallsignFound,
             (premiumPhase pc fz build (pyStrip ch.name) s1).otaAttempted,
             (premiumPhase pc fz build (pyStrip ch.name) s1).premiumAttempted⟩ := by
  simp only [processChannel] at h
  cases hop : otaPhase bc mb fmtStr (pyStrip ch.name) with
  | error e =>
    rw [hop] at h
    exact Except.noConfusion
      (show (Except.error e : Except Unit ProcResult) = Except.ok res from h)
  | ok s1 =>
    rw [hop] at h
    refine ⟨s1, rfl, ?_⟩
    have h4 : (Except.ok
        (⟨mkRecord ch (pyStrip ch.name) (premiumPhase pc fz build (pyStrip ch.name) s1),
          (premiumPhase pc fz build (pyStrip ch.name) s1).newName,
          (premiumPhase pc fz build (pyStrip ch.name) s1).otaCallsignFound,
          (premiumPhase pc fz build (pyStrip ch.name) s1).otaAttempted,
          (premiumPhase pc fz build (pyStrip ch.name) s1).premiumAttempted⟩ : ProcResult) :
        Except Unit ProcResult) = Except.ok res := h
    injection h4 with h5
    exact h5.symm

/-- Properties of a Skipped record produced by one loop iteration: the
new name equals the current name and the reason is non-empty. -/
theorem processChannel_skipped_props (bc pc : Bool)
    (mb : String → Option String × Option Station)
    (fz : String → Option String × Nat × Option String)
    (build : String → String → String) (fmtStr : String) (ch : Channel)
    (r : ProcResult)
    (h : processChannel bc pc mb fz build fmtStr ch = Except.ok r)
    (hs : r.record.status = Status.skipped) :
    r.record.newName = r.record.currentName ∧ r.record.reason ≠ "" := by
  obtain ⟨s1, hop, hres⟩ := processChannel_ok bc pc mb fz build fmtStr ch r h
  subst hres
  dsimp only at hs ⊢
  rcases mkRecord_eq ch (pyStrip ch.name) (premiumPhase pc fz build (pyStrip ch.name) s1)
    with ⟨ht, hne, heq⟩ | ⟨hc, heq⟩
  · rw [heq] at hs
    exact absurd hs (by simp)
  · rw [heq]
    dsimp only
    refine ⟨rfl, ?_⟩
    by_cases hnc :
      (premiumPhase pc fz build (pyStrip ch.name) s1).newName = some (pyStrip ch.name)
    · rw [if_pos hnc]
      decide
    · rw [if_neg hnc]
      rw [premiumPhase_skipReason]
      rcases (otaPhase_inv bc mb fmtStr (pyStrip ch.name) s1 hop).2.2
        with h0 | h0 | ⟨cs, h0⟩ <;> rw [h0]
      · decide
      · decide
      · exact callsign_reason_ne_empty cs

/-- C1: in a load-and-process pass, a channel is Renamed only if the
computed new name differs from the current name; and whenever the
computed name equals the current name, the record is Skipped with the
already-correct reason. -/
theorem c1_renamed_only_if_different (bc pc : Bool)
    (mb : String → Option String × Option Station)
    (fz : String → Option String × Nat × Option String)
    (build : String → String → String) (fmtStr : String) (ch : Channel)
    (res : ProcResult)
    (h : processChannel bc pc mb fz build fmtStr ch = Except.ok res) :
    (res.record.status = Status.renamed → res.record.newName ≠ res.record.currentName) ∧
    (res.computed = some res.record.currentName →
      res.record.status = Status.skipped ∧
      res.record.reason = "Already in correct format") := by
  obtain ⟨s1, hop, hres⟩ := processChannel_ok bc pc mb fz build fmtStr ch res h
  subst hres
  dsimp only
  rcases mkRecord_eq ch (pyStrip ch.name) (premiumPhase pc fz build (pyStrip ch.name) s1)
    with ⟨ht, hne, heq⟩ | ⟨hc, heq⟩
  · rw [heq]
    dsimp only
    constructor
    · intro _
      rcases hv : (premiumPhase pc fz build (pyStrip ch.name) s1).newName with _ | v
      · rw [hv] at ht
        exact absurd ht (by simp [truthyOpt])
      · intro he
        have he2 : v = pyStrip ch.name := he
        exact hne (hv.trans (congrArg some he2))
    · intro hcomp
      exact absurd hcomp hne
  · rw [heq]
    dsimp only
    constructor
    · intro hst
      exact absurd hst (by simp)
    · intro hcomp
      refine ⟨rfl, ?_⟩
      rw [if_pos hcomp]

/-- Witness for C1 at a concrete channel with trivial matchers. -/
theorem c1_witness :
    processChannel false false mbNone fzNone buildId "" ch0 = Except.ok noMatchRes0 ∧
    (noMatchRes0.record.status = Status.renamed →
      noMatchRes0.record.newName ≠ noMatchRes0.record.currentName) ∧
    (noMatchRes0.computed = some noMatchRes0.record.currentName →
      noMatchRes0.record.status = Status.skipped ∧
      noMatchRes0.record.reason = "Already in correct format") :=
  ⟨rfl,
   (c1_renamed_only_if_different false false mbNone fzNone buildId "" ch0 noMatchRes0 rfl).1,
   (c1_renamed_only_if_different false false mbNone fzNone buildId "" ch0 noMatchRes0 rfl).2⟩

/-- C2: when the broadcast matcher recognizes a callsign that is absent
from the loaded lookup, the channel is Skipped with the distinct
unknown-callsign reason (not the generic no-match reason) and the fuzzy
premium matcher is not attempted; and the premium matcher is attempted
only when no callsign was recognized at all. -/
theorem c2_unknown_callsign_distinct_skip (bc pc : Bool)
    (mb : String → Option String × Option Station)
    (fz : String → Option String × Nat × Option String)
    (build : String → String → String) (fmtStr : String) (ch : Channel) :
    (∀ cs res, bc = true → cs ≠ "" → mb (pyStrip ch.name) = (some cs, none) →
      processChannel bc pc mb fz build fmtStr ch = Except.ok res →
      res.record.status = Status.skipped ∧
      res.record.reason = "Callsign " ++ cs ++ " not in channel databases" ∧
      res.record.reason ≠ "No match found in channels.json" ∧
      res.premiumAttempted = false) ∧
    (∀ res, processChannel bc pc mb fz build fmtStr ch = Except.ok res →
      res.premiumAttempted = true → bc = true →
      truthyOpt (mb (pyStrip ch.name)).1 = false) := by
  constructor
  · intro cs res hb hcs hmb hok
    subst hb
    obtain ⟨s1, hop, hres⟩ := processChannel_ok true pc mb fz build fmtStr ch res hok
    rw [otaPhase_unknown mb fmtStr (pyStrip ch.name) cs hcs hmb] at hop
    injection hop with hs1
    have hfound : s1.otaCallsignFound = true := by rw [← hs1]
    have hpp : premiumPhase pc fz build (pyStrip ch.name) s1 = s1 :=
      premiumPhase_noChange pc fz build (pyStrip ch.name) s1 hfound
    subst hres
    dsimp only
    rw [hpp, ← hs1]
    exact ⟨rfl, rfl, callsign_reason_ne_noMatch cs, rfl⟩
  · intro res hok hpa hb
    subst hb
    obtain ⟨s1, hop, hres⟩ := processChannel_ok true pc mb fz build fmtStr ch res hok
    subst hres
    have hinv := otaPhase_inv true mb fmtStr (pyStrip ch.name) s1 hop
    have hfound := premiumPhase_attempted pc fz build (pyStrip ch.name) s1 hinv.1
      (show (premiumPhase pc fz build (pyStrip ch.name) s1).premiumAttempted = true from hpa)
    have h2 := hinv.2.1
    rw [hfound] at h2
    simpa using h2.symm

/-- Witness for C2 at a concrete channel whose matcher recognizes an
unknown callsign. -/
theorem c2_witness :
    processChannel true false mbUnknownCallsign fzNone buildId "" ch0 =
      Except.ok unknownCsRes0 ∧
    unknownCsRes0.record.status = Status.skipped ∧
    unknownCsRes0.record.reason = "Callsign KFAKE not in channel databases" ∧
    unknownCsRes0.record.reason ≠ "No match found in channels.json" ∧
    unknownCsRes0.premiumAttempted = false :=
  ⟨rfl,
   ((c2_unknown_callsign_distinct_skip true false mbUnknownCallsign fzNone buildId "" ch0).1
      "KFAKE" unknownCsRes0 rfl (by decide) rfl rfl).1,
   ((c2_unknown_callsign_distinct_skip true false mbUnknownCallsign fzNone buildId "" ch0).1
      "KFAKE" unknownCsRes0 rfl (by decide) rfl rfl).2.1,
   ((c2_unknown_callsign_distinct_skip true false mbUnknownCallsign fzNone buildId "" ch0).1
      "KFAKE" unknownCsRes0 rfl (by decide) rfl rfl).2.2.1,
   ((c2_unknown_callsign_distinct_skip true false mbUnknownCallsign fzNone buildId "" ch0).1
      "KFAKE" unknownCsRes0 rfl (by decide) rfl rfl).2.2.2⟩

/-- C9: a completed load-and-process pass produces exactly one record
per loaded channel, every record is Renamed or Skipped, every Skipped
record keeps its current name and carries a non-empty reason, and the
persisted counts (lengths of the two lists) sum to the number of loaded
channels. -/
theorem c9_batch_invariants (bc pc : Bool)
    (mb : String → Option String × Option Station)
    (fz : String → Option String × Nat × Option String)
    (build : String → String → String) (fmtStr : String) (chans : List Channel)
    (ren sk : List ChangeRecord)
    (h : processBatch bc pc mb fz build fmtStr chans = Except.ok (ren, sk)) :
    ren.length + sk.length = chans.length ∧
    (∀ r ∈ ren, r.status = Status.renamed) ∧
    (∀ r ∈ sk, r.status = Status.skipped ∧ r.newName = r.currentName ∧ r.reason ≠ "") := by
  induction chans generalizing ren sk with
  | nil =>
    have h2 : (Except.ok (([], []) : List ChangeRecord × List ChangeRecord) :
        Except Unit (List ChangeRecord × List ChangeRecord)) = Except.ok (ren, sk) := h
    injection h2 with h3
    injection h3 with h4 h5
    subst h4
    subst h5
    exact ⟨rfl, by simp, by simp⟩
  | cons ch rest ih =>
    simp only [processBatch] at h
    split at h
    next e hpc => exact Except.noConfusion h
    next r hpc =>
      split at h
      next e hpb => exact Except.noConfusion h
      next ren2 sk2 hpb =>
        obtain ⟨ihl, ihr, ihs⟩ := ih ren2 sk2 hpb
        split at h
        next hst =>
          injection h with h3
          injection h3 with h4 h5
          subst h4
          subst h5
          refine ⟨by simp only [List.length_cons]; omega, ?_, ihs⟩
          intro r2 hr2
          rcases List.mem_cons.mp hr2 with rfl | hr2
          · exact hst
          · exact ihr r2 hr2
        next hst =>
          injection h with h3
          injection h3 with h4 h5
          subst h4
          subst h5
          have hskip := processChannel_skipped_props bc pc mb fz build fmtStr ch r hpc hst
          refine ⟨by simp only [List.length_cons]; omega, ihr, ?_⟩
          intro r2 hr2
          rcases List.mem_cons.mp hr2 with rfl | hr2
          · exact ⟨hst, hskip.1, hskip.2⟩
          · exact ihs r2 hr2

/-- Witness for C9: one channel, one Skipped record. -/
theorem c9_witness :
    processBatch false false mbNone fzNone buildId "" [ch0] =
      Except.ok ([], [noMatchRec0]) ∧
    ([] : List ChangeRecord).length + [noMatchRec0].length = [ch0].length ∧
    (∀ r ∈ ([] : List ChangeRecord), r.status = Status.renamed) ∧
    (∀ r ∈ [noMatchRec0],
      r.status = Status.skipped ∧ r.newName = r.currentName ∧ r.reason ≠ "") :=
  ⟨rfl,
   (c9_batch_invariants false false mbNone fzNone buildId "" [ch0] [] [noMatchRec0] rfl).1,
   (c9_batch_invariants false false mbNone fzNone buildId "" [ch0] [] [noMatchRec0] rfl).2.1,
   (c9_batch_invariants false false mbNone fzNone buildId "" [ch0] [] [noMatchRec0] rfl).2.2⟩

/-- C10: a format template that references any placeholder other than
NETWORK, CITY, STATE or CALLSIGN makes `_format_ota_name` return None
for every station record and every callsign, so the channel is treated
as unmatched. -/
theorem c10_unknown_placeholder_unmatched (st : Station) (callsign fmtStr p : String)
    (hmem : p ∈ findPlaceholders fmtStr)
    (h1 : p ≠ "NETWORK") (h2 : p ≠ "CITY") (h3 : p ≠ "STATE") (h4 : p ≠ "CALLSIGN") :
    formatOtaName st fmtStr callsign = Except.ok none := by
  have hg : goodField st callsign p = false := by
    unfold goodField
    have e1 : (p == "NETWORK") = false := by simp [h1]
    have e2 : (p == "CITY") = false := by simp [h2]
    have e3 : (p == "STATE") = false := by simp [h3]
    have e4 : (p == "CALLSIGN") = false := by simp [h4]
    have hl : (otaReplacements st callsign).lookup p = none := by
      simp [otaReplacements, List.lookup, e1, e2, e3, e4]
    rw [hl]
  have hall : (findPlaceholders fmtStr).all (fun f => goodField st callsign f) = false := by
    cases hca : (findPlaceholders fmtStr).all (fun f => goodField st callsign f) with
    | false => rfl
    | true =>
      have h5 : goodField st callsign p = true := List.all_eq_true.mp hca p hmem
      rw [hg] at h5
      exact Bool.noConfusion h5
  simp only [formatOtaName]
  rw [if_neg (by simp [hall])]

/-- Witness for C10: the template referencing only the unsupported
placeholder FOO yields None. -/
theorem c10_witness :
    ("FOO" ∈ findPlaceholders "{FOO}") ∧
    formatOtaName stationNoNet "{FOO}" "KUSA" = Except.ok none :=
  ⟨by decide,
   c10_unknown_placeholder_unmatched stationNoNet "KUSA" "{FOO}" "FOO"
     (by decide) (by decide) (by decide) (by decide) (by decide)⟩

/-- C3 (code bug): at a station whose network affiliation parses to
nothing and a template that references only placeholders with values,
`_format_ota_name` raises `TypeError` (from `str.replace` with `None`)
instead of returning the formatted name; the first conjunct shows every
referenced placeholder has a value, the third shows the None outcome
does occur when NETWORK is referenced. -/
theorem c3_unreferenced_network_raises :
    ((findPlaceholders "{CITY} ({CALLSIGN})").all
      (fun f => goodField stationNoNet "KUSA-TV" f) = true) ∧
    formatOtaName stationNoNet "{CITY} ({CALLSIGN})" "KUSA-TV" = Except.error () ∧
    formatOtaName stationNoNet "{NETWORK} ({CALLSIGN})" "KUSA-TV" = Except.ok none :=
  ⟨rfl, rfl, rfl⟩

/-- C4 counterexample: a malformed threshold does not stop processing:
the threshold resolves to the default 85 and the action still processes
the snapshot into records. -/
theorem c4_counterexample :
    resolveThreshold (PyVal.pyStr "abc") = 85 ∧
    loadAndProcessAction settingsBadThreshold locateAll false false mbNone fzNoneT buildId
      [ch0] = ActionOutcome.success [] [noMatchRec0] :=
  ⟨rfl, rfl⟩

/-- C4 amended: when fuzzy_match_threshold is malformed (not parseable
as an integer, or outside 0-100), a warning is logged, the default 85
is used, and the action proceeds exactly as if 85 had been
configured. -/
theorem c4_amended_default_and_proceed (settings : Settings) (locate : String → Bool)
    (bc pc : Bool) (mb : String → Option String × Option Station)
    (fz : Int → String → Option String × Nat × Option String)
    (build : String → String → String) (chans : List Channel)
    (hm : thresholdMalformed settings.fuzzyThreshold) :
    (∀ t ok, loadChannelData settings locate = LoadResult.loaded t ok → t = 85) ∧
    loadAndProcessAction settings locate bc pc mb fz build chans =
      loadAndProcessAction { settings with fuzzyThreshold := PyVal.pyInt 85 } locate
        bc pc mb fz build chans := by
  have hres : resolveThreshold settings.fuzzyThreshold = 85 := by
    unfold thresholdMalformed at hm
    unfold resolveThreshold
    cases hpt : pyToInt settings.fuzzyThreshold with
    | none => rfl
    | some n =>
      rw [hpt] at hm
      have hm2 : n < 0 ∨ 100 < n := hm
      have hcond : (decide (n < 0) || decide (n > 100)) = true := by
        simp only [Bool.or_eq_true, decide_eq_true_eq]
        omega
      show (if (decide (n < 0) || decide (n > 100)) = true then (85 : Int) else n) = 85
      rw [if_pos hcond]
  constructor
  · intro t ok hld
    simp only [loadChannelData] at hld
    split at hld <;> split at hld
    · exact LoadResult.noConfusion hld
    · injection hld with ha hb
      rw [← ha]
      exact hres
    · exact LoadResult.noConfusion hld
    · injection hld with ha hb
      rw [← ha]
      exact hres
  · have hld : loadChannelData settings locate =
        loadChannelData { settings with fuzzyThreshold := PyVal.pyInt 85 } locate := by
      simp only [loadChannelData]
      rw [hres]
      rfl
    unfold loadAndProcessAction
    rw [hld]

/-- Witness for C4 amended at the malformed concrete settings. -/
theorem c4_witness :
    thresholdMalformed settingsBadThreshold.fuzzyThreshold ∧
    loadAndProcessAction settingsBadThreshold locateAll false false mbNone fzNoneT buildId
      [ch0] =
    loadAndProcessAction { settingsBadThreshold with fuzzyThreshold := PyVal.pyInt 85 }
      locateAll false false mbNone fzNoneT buildId [ch0] :=
  ⟨True.intro,
   (c4_amended_default_and_proceed settingsBadThreshold locateAll false false mbNone fzNoneT
      buildId [ch0] True.intro).2⟩

/-- C5 counterexample: on the input "7 ABC" the source function also
strips the leading channel number, which the claim's step list does not
mention, so the claimed pipeline disagrees with the code. -/
theorem c5_counterexample :
    parseNetworkAffiliation (some "7 ABC") = some "ABC" ∧
    parseNetworkAffiliationClaimed (some "7 ABC") = some "7 ABC" ∧
    parseNetworkAffiliation (some "7 ABC") ≠ parseNetworkAffiliationClaimed (some "7 ABC") :=
  ⟨rfl, rfl, by decide⟩

/-- C5 amended: with a leading-channel-number strip (digits, optional
dot and digits, then whitespace) inserted after the trailing-suffix
strip, the claimed pipeline equals `_parse_network_affiliation` on
every input. -/
theorem c5_amended_pipeline (o : Option String) :
    parseNetworkAffiliation o = parseNetworkAffiliationAmended o := by
  cases o <;> rfl

/-- A string cannot start with both a parenthesis and a bracket. -/
theorem strStarts_paren_not_bracket (tag : String) (h : strStarts tag "(" = true) :
    strStarts tag "[" = false := by
  obtain ⟨cs⟩ := tag
  cases cs with
  | nil => exact absurd h (by decide)
  | cons c rest =>
    simp only [strStarts, List.isPrefixOf, Bool.and_eq_true, beq_iff_eq] at h ⊢
    obtain ⟨hc, -⟩ := h
    subst hc
    decide

/-- C6 counterexample: a configured literal without delimiters is kept
as-is; neither its bracketed nor its parenthesized form is added to the
expanded ignore list. -/
theorem c6_counterexample :
    "HD" ∈ parseIgnoredTags "HD" ∧
    "[HD]" ∉ expandIgnoredTags (parseIgnoredTags "HD") ∧
    "(HD)" ∉ expandIgnoredTags (parseIgnoredTags "HD") := by decide

/-- C6 amended: every configured literal survives into the expanded
list, and a bracket- or parenthesis-delimited literal additionally
contributes the other delimiter form of its content, so delimited tags
match regardless of delimiter style. -/
theorem c6_amended_expansion (tags : List String) (tag : String) (h : tag ∈ tags) :
    tag ∈ expandIgnoredTags tags ∧
    (strStarts tag "[" = true → strEnds tag "]" = true →
      ("(" ++ innerTag tag ++ ")") ∈ expandIgnoredTags tags) ∧
    (strStarts tag "(" = true → strEnds tag ")" = true →
      ("[" ++ innerTag tag ++ "]") ∈ expandIgnoredTags tags) := by
  refine ⟨?_, ?_, ?_⟩
  · refine List.mem_flatMap.mpr ⟨tag, h, ?_⟩
    simp only [expandOneTag]
    split
    · simp
    · split
      · simp
      · simp
  · intro h1 h2
    refine List.mem_flatMap.mpr ⟨tag, h, ?_⟩
    simp only [expandOneTag]
    rw [if_pos (show (strStarts tag "[" && strEnds tag "]") = true by simp [h1, h2])]
    simp
  · intro h1 h2
    refine List.mem_flatMap.mpr ⟨tag, h, ?_⟩
    have hb : strStarts tag "[" = false := strStarts_paren_not_bracket tag h1
    simp only [expandOneTag]
    rw [if_neg (by simp [hb])]
    rw [if_pos (show (strStarts tag "(" && strEnds tag ")") = true by simp [h1, h2])]
    simp

/-- Witness for C6 amended at a bracketed literal. -/
theorem c6_witness :
    ("[HD]" ∈ expandIgnoredTags ["[HD]"]) ∧
    (strStarts "[HD]" "[" = true → strEnds "[HD]" "]" = true →
      ("(" ++ innerTag "[HD]" ++ ")") ∈ expandIgnoredTags ["[HD]"]) ∧
    (strStarts "[HD]" "(" = true → strEnds "[HD]" ")" = true →
      ("[" ++ innerTag "[HD]" ++ "]") ∈ expandIgnoredTags ["[HD]"]) :=
  c6_amended_expansion ["[HD]"] "[HD]" (by decide)

/-- C7: when no requested country dataset can be located, database
loading yields the failure signal (never an exception in this total
model) and the load-and-process action reports the database error; the
outcome is the same error for every snapshot and every matcher, so no
channel is matched or processed. -/
theorem c7_no_datasets_error (settings : Settings) (locate : String → Bool)
    (bc pc : Bool) (mb : String → Option String × Option Station)
    (fz : Int → String → Option String × Nat × Option String)
    (build : String → String → String) (chans : List Channel)
    (h : ∀ code, locate code = false) :
    (∀ t ok, loadChannelData settings locate = LoadResult.loaded t ok → ok = false) ∧
    loadAndProcessAction settings locate bc pc mb fz build chans =
      ActionOutcome.error dbErrMsg := by
  have hfun : locate = fun _ => false := funext h
  subst hfun
  constructor
  · intro t ok hld
    simp only [loadChannelData] at hld
    split at hld <;> split at hld
    · exact LoadResult.noConfusion hld
    · injection hld with h1 h2
      rw [← h2]
      simp [reloadDatabases]
    · exact LoadResult.noConfusion hld
    · injection hld with h1 h2
      rw [← h2]
      simp [reloadDatabases]
  · unfold loadAndProcessAction
    cases hld : loadChannelData settings (fun _ => false) with
    | noCodes => rfl
    | loaded t ok =>
      have hok : ok = false := by
        simp only [loadChannelData] at hld
        split at hld <;> split at hld
        · exact LoadResult.noConfusion hld
        · injection hld with h1 h2
          rw [← h2]
          simp [reloadDatabases]
        · exact LoadResult.noConfusion hld
        · injection hld with h1 h2
          rw [← h2]
          simp [reloadDatabases]
      subst hok
      rfl

/-- Witness for C7 at concrete settings and an all-failing locate. -/
theorem c7_witness :
    (∀ code, locateNone code = false) ∧
    loadAndProcessAction settingsBadThreshold locateNone false false mbNone fzNoneT buildId
      [ch0] = ActionOutcome.error dbErrMsg :=
  ⟨fun _ => rfl,
   (c7_no_datasets_error settingsBadThreshold locateNone false false mbNone fzNoneT buildId
      [ch0] (fun _ => rfl)).2⟩

/-- C8 (code bug): the add-suffix action builds a rename payload for
every Skipped record of the last batch, including one skipped as
already correct (a channel that matched); it errors, changing nothing,
on a whitespace suffix. -/
theorem c8_suffix_hits_already_correct :
    alreadyCorrectRec.reason = "Already in correct format" ∧
    renameUnknownAction " [Unk]" [alreadyCorrectRec] = Except.ok [(7, "HBO [Unk]")] ∧
    renameUnknownAction "   " [alreadyCorrectRec] = Except.error () :=
  ⟨rfl, rfl, rfl⟩

end ChannelMapparr
